import Mathlib

set_option maxRecDepth 8192

/-!
Verification of the gcp-bill-viewer scripts: a shallow embedding of the
billing-export detection, SQL query construction, table health
classification, and the diagnostic sequence, with theorems checking the
specification's claims against the code.

Sources: `gcpbill.py`, `gcp-bill-viewer.py`, `check_bigquery.py`.
-/

/-- Python's substring test `needle in haystack` on character lists:
true when `needle` occurs contiguously in the list. -/
def charsContain (needle : List Char) : List Char → Bool
  | [] => needle.isEmpty
  | c :: cs => needle.isPrefixOf (c :: cs) || charsContain needle cs

/-- Python's substring test `needle in haystack` on strings. -/
def pyContains (needle haystack : String) : Bool :=
  charsContain needle.data haystack.data

/-- The identifier normalization `billing_account_id.replace('-', '_')`
(gcpbill.py line 123, gcp-bill-viewer.py line 100): every dash becomes an
underscore. -/
def cleanId (billing_account_id : String) : String :=
  String.mk (billing_account_id.data.map (fun c => if c = '-' then '_' else c))

/-- The candidate table-name fragments built by `detect_bigquery_export`
(gcpbill.py lines 125-128): `gcp_billing_export_v1_<id>` and
`gcp_billing_export_resource_v1_<id>` over the normalized id. -/
def billingExportPatterns (billing_account_id : String) : List String :=
  ["gcp_billing_export_v1_" ++ cleanId billing_account_id,
   "gcp_billing_export_resource_v1_" ++ cleanId billing_account_id]

/-- The dataset names searched first (gcpbill.py line 130). -/
def common_datasets : List String := ["billing_export", "billing_data", "billing"]

/-- Metadata returned by `bq_client.get_table`, reduced to the fields the
scripts consume: hours elapsed since table creation. -/
structure TableMeta where
  hours_since_creation : ℚ
deriving DecidableEq

/-- A BigQuery result row, carrying every field any of the scripts' queries
read (`row.row_count`, `row.category`, `row.total_cost`, `row.currency`,
`row.min_date`, `row.max_date`). -/
structure BQRow where
  row_count : Nat
  category : Option String
  total_cost : ℚ
  currency : String
  min_date : Option String
  max_date : Option String
deriving DecidableEq

/-- The BigQuery client as the scripts use it: each call either returns a
value or raises (modelled as `Except.error`). `project_id` is the client's
default project. -/
structure BQClient where
  project_id : String
  listDatasets : Except String (List String)
  listTables : String → Except String (List String)
  getTable : String → Except String TableMeta
  query : String → Except String (List BQRow)

/-- The inner double loop `for pattern in common_patterns: if pattern in
table.table_id` (gcpbill.py lines 152-153): some candidate fragment occurs
in the table name. -/
def matchesAnyPattern (patterns : List String) (table_id : String) : Bool :=
  patterns.any (fun pattern => pyContains pattern table_id)

/-- The fully-qualified path `f'{self.project_id}.{dataset_id}.{table.table_id}'`
(gcpbill.py line 154). -/
def qualifiedPath (project_id dataset_id table_id : String) : String :=
  project_id ++ "." ++ dataset_id ++ "." ++ table_id

/-- The table loop of `detect_bigquery_export` (gcpbill.py lines 149-154):
return the qualified path of the first table whose name contains one of the
candidate fragments. -/
def findMatchingTable (project_id dataset_id : String) (patterns : List String) :
    List String → Option String
  | [] => none
  | t :: ts =>
    if matchesAnyPattern patterns t then some (qualifiedPath project_id dataset_id t)
    else findMatchingTable project_id dataset_id patterns ts

/-- The first dataset pass of `detect_bigquery_export` (gcpbill.py lines
140-154): only datasets whose id is one of `common_datasets` are searched;
a raising `list_tables` call propagates. -/
def scanCommonDatasets (c : BQClient) (patterns : List String) :
    List String → Except String (Option String)
  | [] => Except.ok none
  | d :: ds =>
    if d ∈ common_datasets then
      match c.listTables d with
      | Except.error e => Except.error e
      | Except.ok ts =>
        match findMatchingTable c.project_id d patterns ts with
        | some r => Except.ok (some r)
        | none => scanCommonDatasets c patterns ds
    else scanCommonDatasets c patterns ds

/-- The fallback dataset pass of `detect_bigquery_export` (gcpbill.py lines
156-161): every dataset is searched. -/
def scanAllDatasets (c : BQClient) (patterns : List String) :
    List String → Except String (Option String)
  | [] => Except.ok none
  | d :: ds =>
    match c.listTables d with
    | Except.error e => Except.error e
    | Except.ok ts =>
      match findMatchingTable c.project_id d patterns ts with
      | some r => Except.ok (some r)
      | none => scanAllDatasets c patterns ds

/-- The body of the `try` block of `detect_bigquery_export` (gcpbill.py
lines 132-165): list datasets, run the first pass, then the fallback pass. -/
def detectBody (c : BQClient) (patterns : List String) : Except String (Option String) :=
  match c.listDatasets with
  | Except.error e => Except.error e
  | Except.ok datasets =>
    match scanCommonDatasets c patterns datasets with
    | Except.error e => Except.error e
    | Except.ok (some r) => Except.ok (some r)
    | Except.ok none => scanAllDatasets c patterns datasets

/-- `GCPBillingViewer.detect_bigquery_export` (gcpbill.py lines 122-172,
identically gcp-bill-viewer.py lines 99-127): the whole body is wrapped in
`try/except` that swallows any error and falls through to `return None`. -/
def detect_bigquery_export (c : BQClient) (billing_account_id : String) : Option String :=
  match detectBody c (billingExportPatterns billing_account_id) with
  | Except.ok r => r
  | Except.error _ => none

/-- A provider over a fixed set of datasets/tables that never raises:
`dataset_ids` is what `list_datasets` yields and `tables_of d` what
`list_tables d` yields. -/
def tableClient (project_id : String) (dataset_ids : List String)
    (tables_of : String → List String) : BQClient where
  project_id := project_id
  listDatasets := Except.ok dataset_ids
  listTables := fun d => Except.ok (tables_of d)
  getTable := fun _ => Except.error "not available"
  query := fun _ => Except.error "not available"

theorem findMatchingTable_eq_none (project_id dataset_id : String) (patterns : List String)
    (ts : List String) :
    findMatchingTable project_id dataset_id patterns ts = none ↔
      ∀ t ∈ ts, matchesAnyPattern patterns t = false := by
  induction ts with
  | nil => simp [findMatchingTable]
  | cons t ts ih =>
    rw [findMatchingTable]
    by_cases h : matchesAnyPattern patterns t = true
    · simp [h]
    · simp only [Bool.not_eq_true] at h
      simp [h, ih]

theorem findMatchingTable_eq_some (project_id dataset_id : String) (patterns : List String)
    (ts : List String) (s : String)
    (h : findMatchingTable project_id dataset_id patterns ts = some s) :
    ∃ t ∈ ts, matchesAnyPattern patterns t = true ∧ s = qualifiedPath project_id dataset_id t := by
  induction ts with
  | nil => simp [findMatchingTable] at h
  | cons t ts ih =>
    rw [findMatchingTable] at h
    by_cases hm : matchesAnyPattern patterns t = true
    · rw [if_pos hm] at h
      exact ⟨t, List.mem_cons_self t ts, hm, (Option.some.inj h).symm⟩
    · rw [if_neg hm] at h
      obtain ⟨u, hu, hmu, hs⟩ := ih h
      exact ⟨u, List.mem_cons_of_mem t hu, hmu, hs⟩

theorem scanCommonDatasets_ok_some (c : BQClient) (patterns : List String) (l : List String)
    (s : String) (h : scanCommonDatasets c patterns l = Except.ok (some s)) :
    ∃ d ∈ l, ∃ ts, c.listTables d = Except.ok ts ∧
      ∃ t ∈ ts, matchesAnyPattern patterns t = true ∧ s = qualifiedPath c.project_id d t := by
  induction l with
  | nil => simp [scanCommonDatasets] at h
  | cons d ds ih =>
    rw [scanCommonDatasets] at h
    split at h
    · split at h
      · exact absurd h (by simp)
      · rename_i ts hts
        split at h
        · rename_i r hr
          refine ⟨d, List.mem_cons_self d ds, ts, hts, ?_⟩
          obtain ⟨t, ht, hmt, hs⟩ := findMatchingTable_eq_some _ _ _ _ _ hr
          exact ⟨t, ht, hmt, by simpa [hs] using (Option.some.inj (Except.ok.inj h)).symm⟩
        · obtain ⟨d2, hd2, rest⟩ := ih h
          exact ⟨d2, List.mem_cons_of_mem d hd2, rest⟩
    · obtain ⟨d2, hd2, rest⟩ := ih h
      exact ⟨d2, List.mem_cons_of_mem d hd2, rest⟩

theorem scanAllDatasets_ok_some (c : BQClient) (patterns : List String) (l : List String)
    (s : String) (h : scanAllDatasets c patterns l = Except.ok (some s)) :
    ∃ d ∈ l, ∃ ts, c.listTables d = Except.ok ts ∧
      ∃ t ∈ ts, matchesAnyPattern patterns t = true ∧ s = qualifiedPath c.project_id d t := by
  induction l with
  | nil => simp [scanAllDatasets] at h
  | cons d ds ih =>
    rw [scanAllDatasets] at h
    split at h
    · exact absurd h (by simp)
    · rename_i ts hts
      split at h
      · rename_i r hr
        refine ⟨d, List.mem_cons_self d ds, ts, hts, ?_⟩
        obtain ⟨t, ht, hmt, hs⟩ := findMatchingTable_eq_some _ _ _ _ _ hr
        exact ⟨t, ht, hmt, by simpa [hs] using (Option.some.inj (Except.ok.inj h)).symm⟩
      · obtain ⟨d2, hd2, rest⟩ := ih h
        exact ⟨d2, List.mem_cons_of_mem d hd2, rest⟩

theorem scanCommonDatasets_ne_error (c : BQClient) (tables_of : String → List String)
    (hlt : ∀ d, c.listTables d = Except.ok (tables_of d)) (patterns : List String)
    (l : List String) (e : String) :
    scanCommonDatasets c patterns l ≠ Except.error e := by
  induction l with
  | nil => simp [scanCommonDatasets]
  | cons d ds ih =>
    intro h
    rw [scanCommonDatasets] at h
    simp only [hlt d] at h
    by_cases hd : d ∈ common_datasets
    · rw [if_pos hd] at h
      split at h
      · exact absurd h (by simp)
      · exact ih h
    · rw [if_neg hd] at h
      exact ih h

theorem scanAllDatasets_ne_error (c : BQClient) (tables_of : String → List String)
    (hlt : ∀ d, c.listTables d = Except.ok (tables_of d)) (patterns : List String)
    (l : List String) (e : String) :
    scanAllDatasets c patterns l ≠ Except.error e := by
  induction l with
  | nil => simp [scanAllDatasets]
  | cons d ds ih =>
    intro h
    rw [scanAllDatasets] at h
    simp only [hlt d] at h
    split at h
    · exact absurd h (by simp)
    · exact ih h

theorem scanAllDatasets_ok_none_no_match (c : BQClient) (tables_of : String → List String)
    (hlt : ∀ d, c.listTables d = Except.ok (tables_of d)) (patterns : List String)
    (l : List String) (h : scanAllDatasets c patterns l = Except.ok none) :
    ∀ d ∈ l, ∀ t ∈ tables_of d, matchesAnyPattern patterns t = false := by
  induction l with
  | nil => simp
  | cons d ds ih =>
    rw [scanAllDatasets] at h
    simp only [hlt d] at h
    split at h
    · exact absurd h (by simp)
    · rename_i hf
      intro d2 hd2 t ht
      rcases List.mem_cons.mp hd2 with rfl | hd2
      · exact (findMatchingTable_eq_none _ _ _ _).mp hf t ht
      · exact ih h d2 hd2 t ht

theorem detect_eq_of_listDatasets (c : BQClient) (billing_account_id : String)
    (ds : List String) (hld : c.listDatasets = Except.ok ds) :
    detect_bigquery_export c billing_account_id =
      (match scanCommonDatasets c (billingExportPatterns billing_account_id) ds with
       | Except.error _ => none
       | Except.ok (some r) => some r
       | Except.ok none =>
         match scanAllDatasets c (billingExportPatterns billing_account_id) ds with
         | Except.ok r => r
         | Except.error _ => none) := by
  unfold detect_bigquery_export detectBody
  rw [hld]
  cases hsc : scanCommonDatasets c (billingExportPatterns billing_account_id) ds with
  | error e => simp [hsc]
  | ok r =>
    cases r with
    | none => simp [hsc]
    | some s => simp [hsc]

/-- C6: for every billing account id, the normalized identifier `clean_id`
used in the candidate table fragments contains no dash: it is exactly the
input with every dash replaced by an underscore. -/
theorem cleanId_no_dash (billing_account_id : String) :
    (cleanId billing_account_id).data.contains '-' = false ∧
    (cleanId billing_account_id).data =
      billing_account_id.data.map (fun c => if c = '-' then '_' else c) := by
  refine ⟨?_, rfl⟩
  have hx : ∀ x : Char, (if x = '-' then '_' else x) ≠ '-' := by
    intro x
    by_cases h : x = '-'
    · rw [if_pos h]; decide
    · rw [if_neg h]; exact h
  show (billing_account_id.data.map (fun c => if c = '-' then '_' else c)).contains '-' = false
  simp only [List.contains_eq_any_beq, List.any_map, List.any_eq_false, Function.comp]
  intro x _
  simpa using (hx x).symm

/-- C1: over a provider enumerating a fixed set of datasets and tables
without error, `detect_bigquery_export` returns `none` exactly when no
table name contains a candidate fragment; any returned path is the
fully-qualified `project.dataset.table` of a matching table; and whenever a
matching table exists some path is returned. -/
theorem detect_bigquery_export_correct (c : BQClient) (billing_account_id : String)
    (dataset_ids : List String) (tables_of : String → List String)
    (hld : c.listDatasets = Except.ok dataset_ids)
    (hlt : ∀ d, c.listTables d = Except.ok (tables_of d)) :
    (detect_bigquery_export c billing_account_id = none ↔
      ∀ d ∈ dataset_ids, ∀ t ∈ tables_of d,
        matchesAnyPattern (billingExportPatterns billing_account_id) t = false) ∧
    (∀ s, detect_bigquery_export c billing_account_id = some s →
      ∃ d ∈ dataset_ids, ∃ t ∈ tables_of d,
        matchesAnyPattern (billingExportPatterns billing_account_id) t = true ∧
        s = qualifiedPath c.project_id d t) ∧
    ((∃ d ∈ dataset_ids, ∃ t ∈ tables_of d,
        matchesAnyPattern (billingExportPatterns billing_account_id) t = true) →
      ∃ s, detect_bigquery_export c billing_account_id = some s) := by
  have hD := detect_eq_of_listDatasets c billing_account_id dataset_ids hld
  have sound : ∀ s, detect_bigquery_export c billing_account_id = some s →
      ∃ d ∈ dataset_ids, ∃ t ∈ tables_of d,
        matchesAnyPattern (billingExportPatterns billing_account_id) t = true ∧
        s = qualifiedPath c.project_id d t := by
    intro s hs
    rw [hD] at hs
    rcases hsc : scanCommonDatasets c (billingExportPatterns billing_account_id) dataset_ids with
      e | r1
    · simp [hsc] at hs
    · rcases r1 with _ | s1
      · rcases hsa : scanAllDatasets c (billingExportPatterns billing_account_id) dataset_ids with
          e | r2
        · exact absurd hsa (scanAllDatasets_ne_error c tables_of hlt _ _ e)
        · rcases r2 with _ | s2
          · simp [hsc, hsa] at hs
          · simp only [hsc, hsa] at hs
            obtain ⟨d, hd, ts, hts, t, ht, hmt, heq⟩ :=
              scanAllDatasets_ok_some c _ _ _ hsa
            have hts2 : ts = tables_of d := Except.ok.inj (hts.symm.trans (hlt d))
            subst hts2
            cases hs
            exact ⟨d, hd, t, ht, hmt, heq⟩
      · simp only [hsc] at hs
        obtain ⟨d, hd, ts, hts, t, ht, hmt, heq⟩ :=
          scanCommonDatasets_ok_some c _ _ _ hsc
        have hts2 : ts = tables_of d := Except.ok.inj (hts.symm.trans (hlt d))
        subst hts2
        cases hs
        exact ⟨d, hd, t, ht, hmt, heq⟩
  have noneIff : detect_bigquery_export c billing_account_id = none ↔
      ∀ d ∈ dataset_ids, ∀ t ∈ tables_of d,
        matchesAnyPattern (billingExportPatterns billing_account_id) t = false := by
    constructor
    · intro hs
      rw [hD] at hs
      rcases hsc : scanCommonDatasets c (billingExportPatterns billing_account_id) dataset_ids with
        e | r1
      · exact absurd hsc (scanCommonDatasets_ne_error c tables_of hlt _ _ e)
      · rcases r1 with _ | s1
        · rcases hsa : scanAllDatasets c (billingExportPatterns billing_account_id) dataset_ids with
            e | r2
          · exact absurd hsa (scanAllDatasets_ne_error c tables_of hlt _ _ e)
          · rcases r2 with _ | s2
            · exact scanAllDatasets_ok_none_no_match c tables_of hlt _ _ hsa
            · simp [hsc, hsa] at hs
        · simp [hsc] at hs
    · intro hno
      rw [hD]
      rcases hsc : scanCommonDatasets c (billingExportPatterns billing_account_id) dataset_ids with
        e | r1
      · exact absurd hsc (scanCommonDatasets_ne_error c tables_of hlt _ _ e)
      · rcases r1 with _ | s1
        · rcases hsa : scanAllDatasets c (billingExportPatterns billing_account_id) dataset_ids with
            e | r2
          · exact absurd hsa (scanAllDatasets_ne_error c tables_of hlt _ _ e)
          · rcases r2 with _ | s2
            · simp [hsa]
            · obtain ⟨d, hd, ts, hts, t, ht, hmt, heq⟩ :=
                scanAllDatasets_ok_some c _ _ _ hsa
              have hts2 : ts = tables_of d := Except.ok.inj (hts.symm.trans (hlt d))
              subst hts2
              exact absurd (hno d hd t ht) (by simp [hmt])
        · obtain ⟨d, hd, ts, hts, t, ht, hmt, heq⟩ :=
            scanCommonDatasets_ok_some c _ _ _ hsc
          have hts2 : ts = tables_of d := Except.ok.inj (hts.symm.trans (hlt d))
          subst hts2
          exact absurd (hno d hd t ht) (by simp [hmt])
  refine ⟨noneIff, sound, ?_⟩
  intro ⟨d, hd, t, ht, hmt⟩
  rcases hdet : detect_bigquery_export c billing_account_id with _ | s
  · exact absurd (noneIff.mp hdet d hd t ht) (by simp [hmt])
  · exact ⟨s, rfl⟩

/-- The stub provider of the end-to-end C1 scenario: one dataset
`billing_export` holding the table `gcp_billing_export_v1_01AB23_CD4567`. -/
def c1TablesOf : String → List String := fun _ => ["gcp_billing_export_v1_01AB23_CD4567"]

/-- Witness for C1: for billing account `01AB23-CD4567` and the stub
provider, a path is returned, and it is the matching table's fully
qualified path. -/
theorem detect_bigquery_export_correct_witness :
    (∃ s, detect_bigquery_export (tableClient "proj" ["billing_export"] c1TablesOf)
        "01AB23-CD4567" = some s) ∧
    detect_bigquery_export (tableClient "proj" ["billing_export"] c1TablesOf) "01AB23-CD4567" =
      some "proj.billing_export.gcp_billing_export_v1_01AB23_CD4567" := by
  refine ⟨?_, by decide⟩
  exact (detect_bigquery_export_correct (tableClient "proj" ["billing_export"] c1TablesOf)
      "01AB23-CD4567" ["billing_export"] c1TablesOf rfl (fun _ => rfl)).2.2
    ⟨"billing_export", by decide, "gcp_billing_export_v1_01AB23_CD4567", by decide, by decide⟩

/-- C4: for every provider state, including any raising call,
`detect_bigquery_export` evaluates to `none` or to the fully-qualified path
of a table whose name contains a candidate fragment; a raising provider
call is swallowed and yields `none`. -/
theorem detect_bigquery_export_total (c : BQClient) (billing_account_id : String) :
    (detect_bigquery_export c billing_account_id = none ∨
     ∃ ds, c.listDatasets = Except.ok ds ∧
       ∃ d ∈ ds, ∃ ts, c.listTables d = Except.ok ts ∧
         ∃ t ∈ ts, matchesAnyPattern (billingExportPatterns billing_account_id) t = true ∧
           detect_bigquery_export c billing_account_id =
             some (qualifiedPath c.project_id d t)) ∧
    (∀ e, c.listDatasets = Except.error e →
      detect_bigquery_export c billing_account_id = none) := by
  refine ⟨?_, ?_⟩
  case refine_2 =>
    intro e he
    unfold detect_bigquery_export detectBody
    rw [he]
  rcases hld : c.listDatasets with e | ds
  · left
    unfold detect_bigquery_export detectBody
    rw [hld]
  · have hD := detect_eq_of_listDatasets c billing_account_id ds hld
    rcases hsc : scanCommonDatasets c (billingExportPatterns billing_account_id) ds with e | r1
    · left; rw [hD]; simp [hsc]
    · rcases r1 with _ | s1
      · rcases hsa : scanAllDatasets c (billingExportPatterns billing_account_id) ds with e | r2
        · left; rw [hD]; simp [hsc, hsa]
        · rcases r2 with _ | s2
          · left; rw [hD]; simp [hsc, hsa]
          · right
            obtain ⟨d, hd, ts, hts, t, ht, hmt, heq⟩ := scanAllDatasets_ok_some c _ _ _ hsa
            exact ⟨ds, rfl, d, hd, ts, hts, t, ht, hmt, by rw [hD]; simp [hsc, hsa, heq]⟩
      · right
        obtain ⟨d, hd, ts, hts, t, ht, hmt, heq⟩ := scanCommonDatasets_ok_some c _ _ _ hsc
        exact ⟨ds, rfl, d, hd, ts, hts, t, ht, hmt, by rw [hD]; simp [hsc, heq]⟩

/-- String concatenation concatenates the underlying character lists. -/
theorem string_data_append (a b : String) : (a ++ b).data = a.data ++ b.data := rfl

/-- The grouping-field lookup `group_fields.get(group_by, 'service.description')`
(gcpbill.py lines 227-234). -/
def group_fields_get (group_by : String) : String :=
  if group_by = "service" then "service.description"
  else if group_by = "project" then "project.id"
  else if group_by = "day" then "DATE(usage_start_time)"
  else if group_by = "month" then "FORMAT_DATE(\"%Y-%m\", usage_start_time)"
  else "service.description"

/-- The WHERE block of the cost query f-string (gcpbill.py lines 243-244,
gcp-bill-viewer.py lines 210-211). -/
def whereClause (start_date end_date : String) : String :=
  "WHERE usage_start_time >= TIMESTAMP('" ++ start_date ++
  "')\n            AND usage_start_time < TIMESTAMP('" ++ end_date ++ "')"

/-- The optional `query += f" AND project.id = '{project_filter}'"`
(gcpbill.py lines 247-248, gcp-bill-viewer.py lines 214-215). -/
def projectFilterClause : Option String → String
  | some project_filter => " AND project.id = '" ++ project_filter ++ "'"
  | none => ""

/-- The aggregate cost query string built by `get_costs_from_bigquery`
(gcpbill.py lines 237-253; gcp-bill-viewer.py lines 204-220 builds the
identical template with its category expression as the group field). -/
def costQuery (table_id start_date end_date : String) (project_filter : Option String)
    (group_field : String) : String :=
  "\n        SELECT\n            " ++ group_field ++
  " as category,\n            ROUND(SUM(cost), 2) as total_cost,\n            currency\n        FROM `" ++
  table_id ++ "`\n        " ++ whereClause start_date end_date ++ "\n        " ++
  projectFilterClause project_filter ++
  "\n        GROUP BY category, currency\n        ORDER BY total_cost DESC\n        "

example : costQuery "T" "S" "E" (some "P") "GF" =
    "\n        SELECT\n            GF as category,\n            ROUND(SUM(cost), 2) as total_cost,\n            currency\n        FROM `T`\n        WHERE usage_start_time >= TIMESTAMP('S')\n            AND usage_start_time < TIMESTAMP('E')\n         AND project.id = 'P'\n        GROUP BY category, currency\n        ORDER BY total_cost DESC\n        " := by
  decide

/-- C2: for all dates and filters, the query string built by
`get_costs_from_bigquery` contains the half-open range WHERE clause on
`usage_start_time`, and, when a project filter is supplied, the
`project.id` equality filter. -/
theorem costQuery_where_and_project (table_id start_date end_date group_field : String)
    (project_filter : Option String) :
    (whereClause start_date end_date).data <:+:
      (costQuery table_id start_date end_date project_filter group_field).data ∧
    ∀ p, project_filter = some p →
      (" AND project.id = '" ++ p ++ "'").data <:+:
        (costQuery table_id start_date end_date project_filter group_field).data := by
  constructor
  · exact ⟨("\n        SELECT\n            " ++ group_field ++
        " as category,\n            ROUND(SUM(cost), 2) as total_cost,\n            currency\n        FROM `" ++
        table_id ++ "`\n        ").data,
      ("\n        " ++ projectFilterClause project_filter ++
        "\n        GROUP BY category, currency\n        ORDER BY total_cost DESC\n        ").data,
      by simp [costQuery, string_data_append, List.append_assoc]⟩
  · intro p hp
    subst hp
    exact ⟨("\n        SELECT\n            " ++ group_field ++
        " as category,\n            ROUND(SUM(cost), 2) as total_cost,\n            currency\n        FROM `" ++
        table_id ++ "`\n        " ++ whereClause start_date end_date ++ "\n        ").data,
      ("\n        GROUP BY category, currency\n        ORDER BY total_cost DESC\n        ").data,
      by simp [costQuery, projectFilterClause, string_data_append, List.append_assoc]⟩

/-- Witness for C2 at a concrete table, date pair and project filter. -/
theorem costQuery_where_and_project_witness :
    (whereClause "2025-01-01" "2025-02-01").data <:+:
      (costQuery "proj.ds.tbl" "2025-01-01" "2025-02-01" (some "myproj")
        "service.description").data ∧
    (" AND project.id = '" ++ "myproj" ++ "'").data <:+:
      (costQuery "proj.ds.tbl" "2025-01-01" "2025-02-01" (some "myproj")
        "service.description").data := by
  have h := costQuery_where_and_project "proj.ds.tbl" "2025-01-01" "2025-02-01"
    "service.description" (some "myproj")
  exact ⟨h.1, h.2 "myproj" rfl⟩

/-- C9: any `group_by` value outside service, project, day, month falls back
to the service grouping field, and the resulting query string is the one
built for `group_by = 'service'`. -/
theorem group_fields_get_fallback (group_by : String)
    (h1 : group_by ≠ "service") (h2 : group_by ≠ "project")
    (h3 : group_by ≠ "day") (h4 : group_by ≠ "month") :
    group_fields_get group_by = group_fields_get "service" ∧
    ∀ table_id start_date end_date project_filter,
      costQuery table_id start_date end_date project_filter (group_fields_get group_by) =
        costQuery table_id start_date end_date project_filter (group_fields_get "service") := by
  have h : group_fields_get group_by = "service.description" := by
    simp [group_fields_get, h1, h2, h3, h4]
  have h0 : group_fields_get "service" = "service.description" := rfl
  refine ⟨h.trans h0.symm, ?_⟩
  intro table_id start_date end_date project_filter
  rw [h, h0]

/-- Witness for C9 at the unlisted value `cost`. -/
theorem group_fields_get_fallback_witness :
    group_fields_get "cost" = group_fields_get "service" ∧
    costQuery "T" "S" "E" none (group_fields_get "cost") =
      costQuery "T" "S" "E" none (group_fields_get "service") := by
  have h := group_fields_get_fallback "cost" (by decide) (by decide) (by decide) (by decide)
  exact ⟨h.1, h.2 "T" "S" "E" none⟩

/-- The verdict printed for a detected export table by
`check_billing_export_configuration` (check_bigquery.py lines 171-180):
waiting for first data export, empty after 24+ hours (misconfigured, needs
verification), or export working correctly. -/
inductive ExportHealth where
  | waiting
  | misconfigured
  | working
deriving DecidableEq

/-- The status branch of `check_billing_export_configuration`
(check_bigquery.py lines 171-180), on a table's row count and hours since
creation. -/
def classifyExport (rows : Nat) (hours_ago : ℚ) : ExportHealth :=
  if rows = 0 then
    if hours_ago < 24 then ExportHealth.waiting else ExportHealth.misconfigured
  else ExportHealth.working

/-- C3: the health classification yields waiting exactly on a zero-row table
younger than 24 hours, misconfigured exactly on a zero-row table at least
24 hours old, and working exactly on a nonzero row count. -/
theorem classifyExport_spec (rows : Nat) (hours_ago : ℚ) :
    (classifyExport rows hours_ago = ExportHealth.waiting ↔ rows = 0 ∧ hours_ago < 24) ∧
    (classifyExport rows hours_ago = ExportHealth.misconfigured ↔ rows = 0 ∧ 24 ≤ hours_ago) ∧
    (classifyExport rows hours_ago = ExportHealth.working ↔ rows ≠ 0) := by
  unfold classifyExport
  by_cases h : rows = 0
  · by_cases h2 : hours_ago < 24
    · simp [h, h2, not_le.mpr h2]
    · simp [h, h2, not_lt.mp h2]
  · simp [h]

/-- A billing row as read by the category expression that
`_get_category_sql` generates (gcp-bill-viewer.py lines 129-182): system
labels, SKU description, service description. -/
structure BillingRow where
  system_labels : List (String × String)
  sku_description : String
  service_description : String
deriving DecidableEq

/-- ASCII lowercasing: the semantics of SQL `LOWER` on the descriptions
involved. -/
def lowerString (s : String) : String := String.mk (s.data.map Char.toLower)

/-- Semantics of the system-label subquery of `_get_category_sql`
(gcp-bill-viewer.py lines 133-135): the value of the first `system_labels`
entry whose key is `goog-vertex-ai-model-id`, if any (`LIMIT 1`). -/
def vertexModelLabel (r : BillingRow) : Option String :=
  (r.system_labels.find? (fun kv => kv.fst == "goog-vertex-ai-model-id")).map Prod.snd

/-- The ordered `WHEN LOWER(sku.description) LIKE '%p%' THEN name` arms of
the SKU-description CASE of `_get_category_sql` (gcp-bill-viewer.py lines
138-153). -/
def skuModelPatterns : List (String × String) :=
  [("gemini 1.5 pro", "Gemini 1.5 Pro"),
   ("gemini 1.5 flash", "Gemini 1.5 Flash"),
   ("gemini pro", "Gemini Pro"),
   ("gemini flash", "Gemini Flash"),
   ("gemini ultra", "Gemini Ultra"),
   ("claude 3.5 sonnet", "Claude 3.5 Sonnet"),
   ("claude 3.5 haiku", "Claude 3.5 Haiku"),
   ("claude 3 opus", "Claude 3 Opus"),
   ("claude 3 sonnet", "Claude 3 Sonnet"),
   ("claude 3 haiku", "Claude 3 Haiku"),
   ("llama", "Llama")]

/-- Semantics of the SKU-description CASE: the first arm whose pattern
occurs in the lowercased SKU description, else NULL. -/
def skuModelName (r : BillingRow) : Option String :=
  (skuModelPatterns.find?
    (fun pr => pyContains pr.fst (lowerString r.sku_description))).map Prod.snd

/-- Semantics of the `group_by == 'model'` expression of `_get_category_sql`
(gcp-bill-viewer.py lines 155-170): COALESCE of the system-label subquery,
the SKU CASE, and a final CASE that prefixes the SKU for Vertex AI rows and
otherwise falls back to the service description. -/
def modelCategory (r : BillingRow) : String :=
  match vertexModelLabel r with
  | some v => v
  | none =>
    match skuModelName r with
    | some v => v
    | none =>
      if pyContains "vertex ai" (lowerString r.service_description) then
        "Vertex AI - " ++ r.sku_description
      else r.service_description

/-- C5: the model categorizer resolves with precedence system label over
SKU-description pattern over service-level fallback. -/
theorem modelCategory_precedence (r : BillingRow) :
    (∀ v, vertexModelLabel r = some v → modelCategory r = v) ∧
    (vertexModelLabel r = none → ∀ v, skuModelName r = some v → modelCategory r = v) ∧
    (vertexModelLabel r = none → skuModelName r = none →
      modelCategory r =
        if pyContains "vertex ai" (lowerString r.service_description) then
          "Vertex AI - " ++ r.sku_description
        else r.service_description) := by
  refine ⟨?_, ?_, ?_⟩
  · intro v hv
    unfold modelCategory
    rw [hv]
  · intro h0 v hv
    unfold modelCategory
    rw [h0, hv]
  · intro h0 h1
    unfold modelCategory
    rw [h0, h1]

/-- A row where the system label, a SKU pattern and the Vertex AI service
fallback would all apply. -/
def c5Row : BillingRow :=
  { system_labels := [("goog-vertex-ai-model-id", "gemini-2.0-flash")],
    sku_description := "Claude 3.5 Sonnet Output Tokens",
    service_description := "Vertex AI" }

/-- Witness for C5: on a row where both the label and a SKU pattern are
present, the label wins. -/
theorem modelCategory_precedence_witness :
    vertexModelLabel c5Row = some "gemini-2.0-flash" ∧
    skuModelName c5Row = some "Claude 3.5 Sonnet" ∧
    modelCategory c5Row = "gemini-2.0-flash" := by
  refine ⟨by decide, by decide, ?_⟩
  exact (modelCategory_precedence c5Row).1 "gemini-2.0-flash" (by decide)

/-- The row-count probe string of `_check_table_has_data` (gcpbill.py line
281). -/
def countQueryStr (table_id : String) : String :=
  "SELECT COUNT(*) as row_count FROM `" ++ table_id ++ "` LIMIT 1"

/-- The MIN/MAX date probe string of `_check_date_range_coverage`
(gcpbill.py lines 337-342). -/
def rangeQueryStr (table_id : String) : String :=
  "\n            SELECT \n                MIN(DATE(usage_start_time)) as min_date,\n                MAX(DATE(usage_start_time)) as max_date\n            FROM `" ++
  table_id ++ "`\n            "

/-- `GCPBillingViewer._check_table_has_data` (gcpbill.py lines 279-298):
run the row-count probe; on any error return False, otherwise report
whether the first row's count is positive (False when no row comes back). -/
def check_table_has_data (c : BQClient) (table_id : String) : Bool :=
  match c.query (countQueryStr table_id) with
  | Except.error _ => false
  | Except.ok rows =>
    match rows with
    | [] => false
    | row :: _ => decide (row.row_count > 0)

/-- One entry of the costs list built by `get_costs_from_bigquery`
(gcpbill.py lines 259-265): grouped category (`row.category or 'Unknown'`),
cost, currency. -/
structure CostEntry where
  category : String
  cost : ℚ
  currency : String
deriving DecidableEq

/-- The `row.category or 'Unknown'` coercion: Python treats both a missing
and an empty category as falsy. -/
def categoryOrUnknown : Option String → String
  | none => "Unknown"
  | some s => if s = "" then "Unknown" else s

/-- `GCPBillingViewer.get_costs_from_bigquery` (gcpbill.py lines 174-277),
returning the costs list together with the list of query strings issued
through `bq_client.query`, in order. Detection failure returns empty; the
creation-time lookup feeds only console output; an empty table (or a failed
row-count probe) returns empty before the range probe and the aggregate
query; an aggregate query error is caught and returns empty. -/
def get_costs_from_bigquery (c : BQClient) (billing_account_id start_date end_date : String)
    (project_filter : Option String) (group_by : String) :
    List CostEntry × List String :=
  match detect_bigquery_export c billing_account_id with
  | none => ([], [])
  | some table_id =>
    let _creation_info := c.getTable table_id
    if check_table_has_data c table_id then
      let rangeQ := rangeQueryStr table_id
      let _date_range_info := c.query rangeQ
      let q := costQuery table_id start_date end_date project_filter
        (group_fields_get group_by)
      match c.query q with
      | Except.error _ => ([], [countQueryStr table_id, rangeQ, q])
      | Except.ok rows =>
        (rows.map (fun row =>
          { category := categoryOrUnknown row.category
            cost := row.total_cost
            currency := row.currency }),
         [countQueryStr table_id, rangeQ, q])
    else ([], [countQueryStr table_id])

/-- C8: whenever the aggregate cost query raises, `get_costs_from_bigquery`
catches the error and returns the empty result list. -/
theorem get_costs_query_failure (c : BQClient)
    (billing_account_id start_date end_date : String) (project_filter : Option String)
    (group_by : String) (table_id err : String)
    (hdet : detect_bigquery_export c billing_account_id = some table_id)
    (hq : c.query (costQuery table_id start_date end_date project_filter
        (group_fields_get group_by)) = Except.error err) :
    (get_costs_from_bigquery c billing_account_id start_date end_date project_filter
      group_by).fst = [] := by
  unfold get_costs_from_bigquery
  rw [hdet]
  by_cases h : check_table_has_data c table_id
  · simp [h, hq]
  · simp [h]

/-- A count-probe result row reporting five rows. -/
def c8CountRow : BQRow :=
  { row_count := 5, category := none, total_cost := 0, currency := "USD",
    min_date := none, max_date := none }

/-- A provider exposing a detectable export table whose count probe
succeeds with a positive count while every other query raises. -/
def c8Client : BQClient :=
  { project_id := "proj"
    listDatasets := Except.ok ["billing_export"]
    listTables := fun _ => Except.ok ["gcp_billing_export_v1_ABC"]
    getTable := fun _ => Except.error "metadata unavailable"
    query := fun q =>
      if q = countQueryStr "proj.billing_export.gcp_billing_export_v1_ABC" then
        Except.ok [c8CountRow]
      else Except.error "query failed" }

/-- Witness for C8: with the aggregate query raising, the result is empty. -/
theorem get_costs_query_failure_witness :
    (get_costs_from_bigquery c8Client "ABC" "2025-01-01" "2025-02-01" none "service").fst
      = [] := by
  exact get_costs_query_failure c8Client "ABC" "2025-01-01" "2025-02-01" none "service"
    "proj.billing_export.gcp_billing_export_v1_ABC" "query failed" (by decide) (by rfl)

theorem costQuery_head (table_id start_date end_date : String)
    (project_filter : Option String) (group_field : String) :
    (costQuery table_id start_date end_date project_filter group_field).data.head? =
      some (Char.ofNat 10) := rfl

theorem countQueryStr_head (table_id : String) :
    (countQueryStr table_id).data.head? = some (Char.ofNat 83) := rfl

/-- The aggregate query string starts with a newline while the row-count
probe starts with the letter S, so the two strings are never equal. -/
theorem costQuery_ne_countQuery (table_id start_date end_date : String)
    (project_filter : Option String) (group_field : String) (t2 : String) :
    costQuery table_id start_date end_date project_filter group_field ≠ countQueryStr t2 := by
  intro h
  have h2 := congrArg (fun s : String => s.data.head?) h
  have h3 : (some (Char.ofNat 10) : Option Char) = some (Char.ofNat 83) :=
    (costQuery_head table_id start_date end_date project_filter group_field).symm.trans
      (h2.trans (countQueryStr_head t2))
  exact absurd h3 (by decide)

/-- C10: when the detected table's row-count probe reports no data (or
itself fails), `get_costs_from_bigquery` returns the empty list and the
grouped aggregate cost query is never issued to the provider. -/
theorem get_costs_no_aggregate_on_empty (c : BQClient)
    (billing_account_id start_date end_date : String) (project_filter : Option String)
    (group_by : String) (table_id : String)
    (hdet : detect_bigquery_export c billing_account_id = some table_id)
    (hempty : check_table_has_data c table_id = false) :
    (get_costs_from_bigquery c billing_account_id start_date end_date project_filter
      group_by).fst = [] ∧
    costQuery table_id start_date end_date project_filter (group_fields_get group_by) ∉
      (get_costs_from_bigquery c billing_account_id start_date end_date project_filter
        group_by).snd := by
  unfold get_costs_from_bigquery
  rw [hdet]
  simp [hempty, costQuery_ne_countQuery]

/-- A count-probe result row reporting zero rows. -/
def c10ZeroRow : BQRow :=
  { row_count := 0, category := none, total_cost := 0, currency := "USD",
    min_date := none, max_date := none }

/-- A provider exposing a detectable export table whose queries all report
a zero row count. -/
def c10Client : BQClient :=
  { project_id := "proj"
    listDatasets := Except.ok ["billing_export"]
    listTables := fun _ => Except.ok ["gcp_billing_export_v1_DEF"]
    getTable := fun _ => Except.ok { hours_since_creation := 3 }
    query := fun _ => Except.ok [c10ZeroRow] }

/-- Witness for C10: on the zero-row provider the result is empty and the
aggregate query was not issued. -/
theorem get_costs_no_aggregate_on_empty_witness :
    (get_costs_from_bigquery c10Client "DEF" "2025-01-01" "2025-02-01" none "service").fst
      = [] ∧
    costQuery "proj.billing_export.gcp_billing_export_v1_DEF" "2025-01-01" "2025-02-01" none
        (group_fields_get "service") ∉
      (get_costs_from_bigquery c10Client "DEF" "2025-01-01" "2025-02-01" none "service").snd := by
  exact get_costs_no_aggregate_on_empty c10Client "DEF" "2025-01-01" "2025-02-01" none
    "service" "proj.billing_export.gcp_billing_export_v1_DEF" (by decide) (by decide)

/-- Table metadata consumed by the diagnostic script's step 4
(check_bigquery.py lines 115-121): hours since creation and row count. -/
structure DiagTableInfo where
  hours_ago : ℚ
  num_rows : Nat
deriving DecidableEq

/-- The provider calls made by check_bigquery.py, one field per call site;
each either returns or raises. -/
structure DiagClient where
  auth : Except String String
  listBillingAccounts : Except String (List String)
  listDatasetsMax1 : Except String (List String)
  listDatasets : Except String (List String)
  getDatasetDetails : String → Except String Unit
  listTables : String → Except String (List String)
  getTable : String → Except String DiagTableInfo
  rangeQuery : String → Except String Unit

/-- A billing export table recorded by `check_datasets_and_tables`
(check_bigquery.py lines 123-131). -/
structure BillingTableRecord where
  dataset : String
  table : String
  rows : Nat
  hours_ago : ℚ
deriving DecidableEq

/-- The outcome of a run of check_bigquery.py's `main`: the report data of
a completed run, a `sys.exit`, or an uncaught exception. -/
inductive DiagOutcome where
  | completed (found : Bool) (tables : List BillingTableRecord)
      (health : List ExportHealth)
  | exited (code : Nat)
  | crashed (msg : String)
deriving DecidableEq

/-- The table loop of `check_datasets_and_tables` (check_bigquery.py lines
111-154): `get_table` is inside `try/except`, so its failure skips the
table; a table whose id contains `gcp_billing_export` sets the found flag
and is recorded; the data-range query is inside its own `try/except` and
its outcome is discarded. -/
def diagScanTables (c : DiagClient) (project_id dataset_id : String)
    (found : Bool) (acc : List BillingTableRecord) :
    List String → Bool × List BillingTableRecord
  | [] => (found, acc)
  | t :: ts =>
    match c.getTable (project_id ++ "." ++ dataset_id ++ "." ++ t) with
    | Except.error _ => diagScanTables c project_id dataset_id found acc ts
    | Except.ok info =>
      if pyContains "gcp_billing_export" t then
        let _range := c.rangeQuery (project_id ++ "." ++ dataset_id ++ "." ++ t)
        diagScanTables c project_id dataset_id true
          (acc ++ [{ dataset := dataset_id, table := t,
                     rows := info.num_rows, hours_ago := info.hours_ago }]) ts
      else diagScanTables c project_id dataset_id found acc ts

/-- The dataset loop of `check_datasets_and_tables` (check_bigquery.py
lines 90-154): `get_dataset` failures are caught and ignored, but the
`list_tables` call on line 100 is NOT inside a `try/except`, so its failure
propagates; an empty dataset with a billing-like name resets the found
flag to False (lines 105-106). -/
def diagScanDatasets (c : DiagClient) (project_id : String) (found : Bool)
    (acc : List BillingTableRecord) :
    List String → Except String (Bool × List BillingTableRecord)
  | [] => Except.ok (found, acc)
  | d :: ds =>
    let _details := c.getDatasetDetails d
    match c.listTables d with
    | Except.error e => Except.error e
    | Except.ok ts =>
      if ts.isEmpty then
        let found2 := if d ∈ common_datasets then false else found
        diagScanDatasets c project_id found2 acc ds
      else
        let p := diagScanTables c project_id d found acc ts
        diagScanDatasets c project_id p.fst p.snd ds

/-- `check_datasets_and_tables` (check_bigquery.py lines 72-156): the
`list_datasets` call on line 77 is NOT inside a `try/except`, so its
failure propagates; an empty dataset list returns `(None, None)`, which the
following pure steps treat exactly like `(False, [])`. -/
def check_datasets_and_tables (c : DiagClient) (project_id : String) :
    Except String (Bool × List BillingTableRecord) :=
  match c.listDatasets with
  | Except.error e => Except.error e
  | Except.ok ds =>
    if ds.isEmpty then Except.ok (false, [])
    else diagScanDatasets c project_id false [] ds

/-- `main` of check_bigquery.py (lines 245-267): authentication failure
exits with code 1 (lines 23-26); a billing-accounts failure or empty list
yields None and the run continues (lines 53-56); a BigQuery API probe
failure exits with code 1 (lines 257-258 via lines 66-70); step 4 may
propagate an uncaught exception; steps 5 and 6 are pure reporting, with the
per-table status of step 5 given by `classifyExport`. -/
def diag_main (c : DiagClient) : DiagOutcome :=
  match c.auth with
  | Except.error _ => DiagOutcome.exited 1
  | Except.ok project_id =>
    let _accounts : Option (List String) :=
      match c.listBillingAccounts with
      | Except.error _ => none
      | Except.ok l => if l.isEmpty then none else some l
    match c.listDatasetsMax1 with
    | Except.error _ => DiagOutcome.exited 1
    | Except.ok _ =>
      match check_datasets_and_tables c project_id with
      | Except.error e => DiagOutcome.crashed e
      | Except.ok (found, tables) =>
        DiagOutcome.completed found tables
          (tables.map (fun bt => classifyExport bt.rows bt.hours_ago))

/-- A provider state whose table enumeration raises after all earlier
checks pass. -/
def c7CrashClient : DiagClient :=
  { auth := Except.ok "proj"
    listBillingAccounts := Except.ok ["billingAccounts/012345-ABCDEF-678901"]
    listDatasetsMax1 := Except.ok ["some_dataset"]
    listDatasets := Except.ok ["some_dataset"]
    getDatasetDetails := fun _ => Except.ok ()
    listTables := fun _ => Except.error "transient BigQuery failure"
    getTable := fun _ => Except.error "unused"
    rangeQuery := fun _ => Except.error "unused" }

/-- Counterexample for C7: a `list_tables` failure during dataset
enumeration (a state later than Authenticate and CheckAPI) does not degrade
to an informational report: it propagates as an uncaught exception and the
sequence does not continue to completion. -/
theorem diag_main_crash_counterexample :
    diag_main c7CrashClient = DiagOutcome.crashed "transient BigQuery failure" := by
  rfl

/-- C7 as amended: authentication or API-probe failures exit with code 1,
and a run whose dataset and table enumeration calls all succeed completes
regardless of failures in billing-account listing, per-table metadata
lookup or the data-range probe; but (per the counterexample) a failing
enumeration call itself aborts the run. -/
theorem diag_main_exit_and_degrade (c : DiagClient) :
    (∀ e, c.auth = Except.error e → diag_main c = DiagOutcome.exited 1) ∧
    (∀ project_id e, c.auth = Except.ok project_id →
      c.listDatasetsMax1 = Except.error e → diag_main c = DiagOutcome.exited 1) ∧
    (∀ project_id probe ds, c.auth = Except.ok project_id →
      c.listDatasetsMax1 = Except.ok probe → c.listDatasets = Except.ok ds →
      (∀ d ∈ ds, ∃ ts, c.listTables d = Except.ok ts) →
      ∃ found tables, diag_main c =
        DiagOutcome.completed found tables
          (tables.map (fun bt => classifyExport bt.rows bt.hours_ago))) := by
  refine ⟨?_, ?_, ?_⟩
  · intro e he
    unfold diag_main
    rw [he]
  · intro project_id e ha hm
    unfold diag_main
    rw [ha, hm]
  · intro project_id probe ds ha hm hld hlt
    have hscan : ∀ (l : List String), (∀ d ∈ l, ∃ ts, c.listTables d = Except.ok ts) →
        ∀ found acc, ∃ r, diagScanDatasets c project_id found acc l = Except.ok r := by
      intro l
      induction l with
      | nil => exact fun _ found acc => ⟨(found, acc), rfl⟩
      | cons d l2 ih =>
        intro hl found acc
        obtain ⟨ts, hts⟩ := hl d (List.mem_cons_self d l2)
        rw [diagScanDatasets]
        simp only [hts]
        by_cases hemp : ts.isEmpty
        · rw [if_pos hemp]
          exact ih (fun d2 hd2 => hl d2 (List.mem_cons_of_mem d hd2)) _ _
        · rw [if_neg hemp]
          exact ih (fun d2 hd2 => hl d2 (List.mem_cons_of_mem d hd2)) _ _
    unfold diag_main
    simp only [ha, hm]
    unfold check_datasets_and_tables
    simp only [hld]
    by_cases hemp : ds.isEmpty
    · rw [if_pos hemp]
      exact ⟨false, [], rfl⟩
    · rw [if_neg hemp]
      obtain ⟨⟨found, tables⟩, hr⟩ := hscan ds hlt false []
      rw [hr]
      exact ⟨found, tables, rfl⟩

/-- A provider state where billing-account listing and every table-metadata
lookup fail while dataset and table enumeration succeed. -/
def c7DegradeClient : DiagClient :=
  { auth := Except.ok "proj"
    listBillingAccounts := Except.error "permission denied"
    listDatasetsMax1 := Except.ok ["billing_export"]
    listDatasets := Except.ok ["billing_export"]
    getDatasetDetails := fun _ => Except.error "permission denied"
    listTables := fun _ => Except.ok ["gcp_billing_export_v1_XYZ"]
    getTable := fun _ => Except.error "permission denied"
    rangeQuery := fun _ => Except.error "permission denied" }

/-- Witness for the amended C7: the degraded run still completes. -/
theorem diag_main_exit_and_degrade_witness :
    ∃ found tables, diag_main c7DegradeClient =
      DiagOutcome.completed found tables
        (tables.map (fun bt => classifyExport bt.rows bt.hours_ago)) := by
  exact (diag_main_exit_and_degrade c7DegradeClient).2.2 "proj" ["billing_export"]
    ["billing_export"] rfl rfl rfl
    (fun d _ => ⟨["gcp_billing_export_v1_XYZ"], rfl⟩)
